import Mathlib

/-
Shallow embedding of the MetaGPT setup-verification script (verify_setup.py).

The inspected environment is modelled as an explicit snapshot value `Env`
(interpreter version triple, virtual-environment markers, module
importability, external-command outcomes, configuration-file state).
Each probe of the script becomes a Lean function over `Env`; subprocess
invocation is a primitive that either returns (returncode, stdout) or
raises one of the two exception kinds the script can encounter
(FileNotFoundError, TimeoutExpired), modelled with `Except`.  A probe
that lets an exception escape has an `Except` result type; a probe that
catches every modelled exception is total.
-/

namespace VerifySetup

/-- What the operating system does when a fixed external command is invoked:
the executable is missing from the resolution path, the process exceeds the
configured timeout, or it runs to completion with a return code and stdout. -/
inductive CmdOutcome where
  | notFound
  | timeout
  | ran (returncode : Int) (stdout : String)
  deriving DecidableEq, Repr

/-- The two exception kinds subprocess invocation can raise in the script. -/
inductive PyExc where
  | fileNotFoundError
  | timeoutExpired
  deriving DecidableEq, Repr

/-- Outcome of one check: the boolean the function returns, the main message
printed for the observed state, and the printed remediation hint
(the lines the script prints after a light-bulb marker), empty when none. -/
structure ProbeReport where
  passed : Bool
  detail : String
  remediation : String
  deriving DecidableEq, Repr

/-- Snapshot of the inspected environment.  `venvRealMarker` models the
presence of the attribute real_prefix on the sys module, `venvBaseMarker`
the presence of base_prefix, and `venvBaseDiffers` whether base_prefix
differs from the active interpreter path value.  `importable` tells for each
module name whether an import of it succeeds.  The two config fields model
the user-level and project-relative configuration paths; the text fields
hold what reading each file as text would yield (the script never reads
them, but the snapshot records them so content-sensitivity is statable). -/
structure Env where
  pyMajor : Nat
  pyMinor : Nat
  pyMicro : Nat
  venvRealMarker : Bool
  venvBaseMarker : Bool
  venvBaseDiffers : Bool
  importable : String → Bool
  metagptHasVersionAttr : Bool
  metagptVersionStr : String
  metagptCmd : CmdOutcome
  configHomeExists : Bool
  configHomeText : String
  configLocalExists : Bool
  configLocalText : String
  npmCmd : CmdOutcome
  mmdcCmd : CmdOutcome
  playwrightCmd : CmdOutcome

/-- subprocess.run on a command with capture and a timeout: raises
FileNotFoundError when the executable is absent, TimeoutExpired when the
bounded wait elapses, and otherwise returns the completed process data. -/
def subprocessRun (c : CmdOutcome) : Except PyExc (Int × String) :=
  match c with
  | .notFound => .error .fileNotFoundError
  | .timeout => .error .timeoutExpired
  | .ran rc out => .ok (rc, out)

/-- check_python_version: passes exactly when the major version equals 3 and
the minor version is at least 9; neither branch prints a remediation hint. -/
def check_python_version (env : Env) : ProbeReport :=
  if env.pyMajor = 3 ∧ 9 ≤ env.pyMinor then
    { passed := true
      detail := "Python version is compatible"
      remediation := "" }
  else
    { passed := false
      detail := "Python 3.9+ required, found " ++ toString env.pyMajor ++ "." ++ toString env.pyMinor
      remediation := "" }

/-- check_virtual_env: passes when the real_prefix marker is present or the
base_prefix marker is present with a differing base path. -/
def check_virtual_env (env : Env) : ProbeReport :=
  if env.venvRealMarker || (env.venvBaseMarker && env.venvBaseDiffers) then
    { passed := true
      detail := "Running in virtual environment"
      remediation := "" }
  else
    { passed := false
      detail := "Not running in virtual environment"
      remediation := "Activate with: source venv/bin/activate" }

/-- check_package_import: importlib.import_module succeeds or raises
ImportError, which is caught; the helper returns a plain boolean. -/
def check_package_import (env : Env) (pkg : String) : Bool :=
  env.importable pkg

/-- The four members of the required dependency batch. -/
def dependencies : List String :=
  ["sys", "pathlib", "subprocess", "importlib"]

/-- The eight members of the optional dependency batch. -/
def optional_deps : List String :=
  ["numpy", "pandas", "pydantic", "aiohttp", "openai", "typer", "rich", "loguru"]

/-- check_core_dependencies: the returned flag is the conjunction of the
required member imports; the optional members only feed a resolved-count
that is printed but not returned.  The pair carries (report, optional count). -/
def check_core_dependencies (env : Env) : ProbeReport × Nat :=
  let all_good := dependencies.all (fun p => check_package_import env p)
  let optional_count := (optional_deps.filter (fun p => check_package_import env p)).length
  ({ passed := all_good
     detail := "Optional dependencies: " ++ toString optional_count ++ "/"
       ++ toString optional_deps.length ++ " available"
     remediation := "" },
   optional_count)

/-- check_metagpt: passes when the target package imports; on failure the
script prints an install hint. -/
def check_metagpt (env : Env) : ProbeReport :=
  if env.importable "metagpt" then
    { passed := true
      detail := if env.metagptHasVersionAttr then
          "Version: " ++ env.metagptVersionStr
        else
          "Version: Development (no version attribute)"
      remediation := "" }
  else
    { passed := false
      detail := "MetaGPT module not available"
      remediation := "Try: pip install -e ." }

/-- check_console_script: runs the console command with a help flag under a
10 second timeout; a zero return code passes, a non-zero return code fails
with no remediation hint, and one except clause catches TimeoutExpired and
FileNotFoundError together, printing the same not-found message for both. -/
def check_console_script (env : Env) : ProbeReport :=
  match subprocessRun env.metagptCmd with
  | .ok (rc, _out) =>
      if rc = 0 then
        { passed := true
          detail := "metagpt command is available"
          remediation := "" }
      else
        { passed := false
          detail := "metagpt command failed"
          remediation := "" }
  | .error .timeoutExpired =>
      { passed := false
        detail := "metagpt command not found"
        remediation := "Install with: pip install -e ." }
  | .error .fileNotFoundError =>
      { passed := false
        detail := "metagpt command not found"
        remediation := "Install with: pip install -e ." }

/-- check_config_files: passes when either declared configuration path
exists; the file content is never read. -/
def check_config_files (env : Env) : ProbeReport :=
  if env.configHomeExists || env.configLocalExists then
    { passed := true
      detail := "Config found"
      remediation := "" }
  else
    { passed := false
      detail := "Config not found"
      remediation := "Setup config with: mkdir -p ~/.metagpt and cp config/config2.yaml ~/.metagpt/config2.yaml" }

/-- The npm block of check_optional_tools with its nested mmdc block: the
outer try catches only FileNotFoundError, the inner try around mmdc also
catches only FileNotFoundError, so a timeout of either subprocess escapes.
Returns (npm usable, mmdc result), where the mmdc result is `none` when the
mmdc subprocess was never invoked. -/
def check_npm_mmdc (env : Env) : Except PyExc (Bool × Option Bool) :=
  match subprocessRun env.npmCmd with
  | .error .fileNotFoundError => .ok (false, none)
  | .error .timeoutExpired => .error .timeoutExpired
  | .ok (rc, _out) =>
      if rc = 0 then
        match subprocessRun env.mmdcCmd with
        | .error .fileNotFoundError => .ok (true, some false)
        | .error .timeoutExpired => .error .timeoutExpired
        | .ok (rc2, _out2) => .ok (true, some (decide (rc2 = 0)))
      else
        .ok (false, none)

/-- The playwright block of check_optional_tools: its try catches only
FileNotFoundError, so a timeout escapes. -/
def check_playwright (env : Env) : Except PyExc Bool :=
  match subprocessRun env.playwrightCmd with
  | .error .fileNotFoundError => .ok false
  | .error .timeoutExpired => .error .timeoutExpired
  | .ok (rc, _out) => .ok (decide (rc = 0))

/-- What check_optional_tools observed, when it returns at all. -/
structure OptionalToolsReport where
  npmOk : Bool
  mmdcResult : Option Bool
  playwrightOk : Bool
  deriving DecidableEq, Repr

/-- check_optional_tools: the npm/mmdc block followed by the playwright
block; any escaped exception aborts the whole function. -/
def check_optional_tools (env : Env) : Except PyExc OptionalToolsReport :=
  match check_npm_mmdc env with
  | .error e => .error e
  | .ok (npmOk, mmdc) =>
      match check_playwright env with
      | .error e => .error e
      | .ok pw => .ok { npmOk := npmOk, mmdcResult := mmdc, playwrightOk := pw }

/-- main: builds the list of the six check booleans in declaration order,
then invokes check_optional_tools (whose value is discarded but whose
escaped exception propagates), and returns 0 when every listed check
passed and 1 otherwise. -/
def main (env : Env) : Except PyExc Nat :=
  let checks : List Bool :=
    [(check_python_version env).passed,
     (check_virtual_env env).passed,
     (check_core_dependencies env).1.passed,
     (check_metagpt env).passed,
     (check_console_script env).passed,
     (check_config_files env).passed]
  match check_optional_tools env with
  | .error e => .error e
  | .ok _ =>
      if checks.count true = checks.length then .ok 0 else .ok 1

/-- State-threaded form of a probe: the probe receives the environment
snapshot and hands it on alongside its report.  The script only reads
(attribute queries, module resolution, bounded version/help subprocess
invocations, existence tests), so each probe returns the snapshot
unchanged. -/
def check_python_versionSt (env : Env) : ProbeReport × Env :=
  (check_python_version env, env)

/-- State-threaded virtual-environment probe. -/
def check_virtual_envSt (env : Env) : ProbeReport × Env :=
  (check_virtual_env env, env)

/-- State-threaded dependency-batch probe. -/
def check_core_dependenciesSt (env : Env) : (ProbeReport × Nat) × Env :=
  (check_core_dependencies env, env)

/-- State-threaded package-importability probe. -/
def check_metagptSt (env : Env) : ProbeReport × Env :=
  (check_metagpt env, env)

/-- State-threaded console-script probe. -/
def check_console_scriptSt (env : Env) : ProbeReport × Env :=
  (check_console_script env, env)

/-- State-threaded configuration-file probe. -/
def check_config_filesSt (env : Env) : ProbeReport × Env :=
  (check_config_files env, env)

/-- State-threaded optional-tools probe. -/
def check_optional_toolsSt (env : Env) : Except PyExc OptionalToolsReport × Env :=
  (check_optional_tools env, env)

/-- One full verification pass in state-threaded form: the six reports in
declaration order together with the verdict of main, plus the environment
as it stands after the pass. -/
def run_suiteSt (env : Env) : (List ProbeReport × Except PyExc Nat) × Env :=
  let s1 := check_python_versionSt env
  let s2 := check_virtual_envSt s1.2
  let s3 := check_core_dependenciesSt s2.2
  let s4 := check_metagptSt s3.2
  let s5 := check_console_scriptSt s4.2
  let s6 := check_config_filesSt s5.2
  let s7 := check_optional_toolsSt s6.2
  (([s1.1, s2.1, s3.1.1, s4.1, s5.1, s6.1],
    match s7.1 with
    | .error e => .error e
    | .ok _ =>
        if [s1.1.passed, s2.1.passed, s3.1.1.passed, s4.1.passed,
            s5.1.passed, s6.1.passed].count true = 6 then
          .ok 0
        else
          .ok 1),
   s7.2)

/-- A healthy snapshot: Python 3.11.2, isolated environment, every module
importable, every external tool present and succeeding, user-level
configuration present. -/
def envAllGood : Env :=
  { pyMajor := 3
    pyMinor := 11
    pyMicro := 2
    venvRealMarker := false
    venvBaseMarker := true
    venvBaseDiffers := true
    importable := fun _ => true
    metagptHasVersionAttr := true
    metagptVersionStr := "0.8.0"
    metagptCmd := .ran 0 ""
    configHomeExists := true
    configHomeText := "llm: config"
    configLocalExists := false
    configLocalText := ""
    npmCmd := .ran 0 "10.2.3"
    mmdcCmd := .ran 0 ""
    playwrightCmd := .ran 0 "" }

/-- Healthy snapshot except that no virtual-environment marker is present. -/
def envNoVenv : Env :=
  { envAllGood with venvBaseMarker := false, venvBaseDiffers := false }

/-- Healthy snapshot except that the npm subprocess exceeds its 5 second
timeout. -/
def envNpmTimeout : Env :=
  { envAllGood with npmCmd := .timeout }

/-- Healthy snapshot except that the playwright subprocess exceeds its
5 second timeout. -/
def envPlaywrightTimeout : Env :=
  { envAllGood with playwrightCmd := .timeout }

/-- Healthy snapshot except that the interpreter reports version 4.0.0. -/
def envPy40 : Env :=
  { envAllGood with pyMajor := 4, pyMinor := 0, pyMicro := 0 }

/-- Healthy snapshot except that the interpreter reports version 3.8.10. -/
def envPy38 : Env :=
  { envAllGood with pyMinor := 8, pyMicro := 10 }

/-- Healthy snapshot except that the user-level configuration file exists
but is empty when read as text. -/
def envEmptyConfig : Env :=
  { envAllGood with configHomeText := "" }

/-- Healthy snapshot except that the npm executable is missing. -/
def envNpmMissing : Env :=
  { envAllGood with npmCmd := .notFound }

/-- Equality of verdict values is decidable. -/
instance : DecidableEq (Except PyExc Nat) :=
  fun a b =>
    match a, b with
    | .ok x, .ok y =>
        if h : x = y then .isTrue (congrArg Except.ok h)
        else .isFalse (fun hh => h (Except.ok.inj hh))
    | .ok _, .error _ => .isFalse (fun hh => Except.noConfusion hh)
    | .error _, .ok _ => .isFalse (fun hh => Except.noConfusion hh)
    | .error e, .error e2 =>
        if h : e = e2 then .isTrue (congrArg Except.error h)
        else .isFalse (fun hh => h (Except.error.inj hh))

/-- C1 counterexample: in `envNoVenv` the three probes the claim calls
REQUIRED (interpreter version, core dependency batch, target-package
importability) all pass, yet main returns 1 because the virtual-environment
check is in the gating list. -/
theorem c1_counterexample :
    (check_python_version envNoVenv).passed = true ∧
    (check_core_dependencies envNoVenv).1.passed = true ∧
    (check_metagpt envNoVenv).passed = true ∧
    main envNoVenv = Except.ok 1 :=
  ⟨rfl, rfl, rfl, rfl⟩

/-- Claim C2: the script sets a 5 second timeout on the npm subprocess but
its except clause catches only FileNotFoundError, so a timeout raises
TimeoutExpired out of check_optional_tools and out of main: the process
crashes instead of recording a FAIL result. -/
theorem c2_timeout_escapes_probe :
    check_optional_tools envNpmTimeout = Except.error PyExc.timeoutExpired ∧
    main envNpmTimeout = Except.error PyExc.timeoutExpired :=
  ⟨rfl, rfl⟩

/-- Claim C3: an interpreter reporting version 4.0.0 fails the version
check even though its printed message demands only Python 3.9+, because the
code requires the major version to equal 3 exactly. -/
theorem c3_major4_rejected :
    (check_python_version envPy40).passed = false ∧
    (check_python_version envPy40).detail = "Python 3.9+ required, found 4.0" :=
  ⟨rfl, rfl⟩

/-- C4 counterexample: a timed-out console command and a missing console
command both FAIL with literally identical detail text, so the three fault
modes are not pairwise distinguished. -/
theorem c4_counterexample :
    (check_console_script { envAllGood with metagptCmd := CmdOutcome.timeout }).passed = false ∧
    (check_console_script { envAllGood with metagptCmd := CmdOutcome.notFound }).passed = false ∧
    (check_console_script { envAllGood with metagptCmd := CmdOutcome.timeout }).detail =
      (check_console_script { envAllGood with metagptCmd := CmdOutcome.notFound }).detail :=
  ⟨rfl, rfl, rfl⟩

/-- C7 counterexample: under interpreter version 3.8.10 the version probe
fails yet its remediation text is empty, so a failing probe need not emit a
remediation instruction. -/
theorem c7_counterexample :
    (check_python_version envPy38).passed = false ∧
    (check_python_version envPy38).remediation = "" :=
  ⟨rfl, rfl⟩

/-- C8 counterexample: the user-level configuration path exists but its
content read as text is empty, yet the configuration probe passes — the
probe never reads the file. -/
theorem c8_counterexample :
    envEmptyConfig.configHomeExists = true ∧
    envEmptyConfig.configHomeText = "" ∧
    (check_config_files envEmptyConfig).passed = true :=
  ⟨rfl, rfl, rfl⟩

/-- Claim C9: a verification pass leaves the environment snapshot exactly
as it found it, so a second pass over the resulting snapshot produces the
identical report sequence and verdict. -/
theorem c9_suite_idempotent (env : Env) :
    (run_suiteSt env).2 = env ∧
    (run_suiteSt ((run_suiteSt env).2)).1 = (run_suiteSt env).1 :=
  ⟨rfl, rfl⟩

/-- C10 counterexample: when the playwright subprocess times out, main
propagates TimeoutExpired and returns neither 0 nor 1, so the outcome of
the optional-tools probe is not always discarded. -/
theorem c10_counterexample :
    main envPlaywrightTimeout = Except.error PyExc.timeoutExpired ∧
    main envPlaywrightTimeout ≠ Except.ok 0 ∧
    main envPlaywrightTimeout ≠ Except.ok 1 :=
  ⟨rfl, fun h => Except.noConfusion h, fun h => Except.noConfusion h⟩

/-- A list of six booleans counts six occurrences of true exactly when all
six are true. -/
theorem count_six (b1 b2 b3 b4 b5 b6 : Bool) :
    ([b1, b2, b3, b4, b5, b6].count true = [b1, b2, b3, b4, b5, b6].length) ↔
      (b1 = true ∧ b2 = true ∧ b3 = true ∧ b4 = true ∧ b5 = true ∧ b6 = true) := by
  cases b1 <;> cases b2 <;> cases b3 <;> cases b4 <;> cases b5 <;> cases b6 <;> decide

/-- Claim C1 (amended): whenever the optional-tools probe raises no
exception, main returns 0 exactly when all six checks of its gating list
(interpreter version, virtual environment, core dependency batch, target
package import, console script, configuration files) pass, and 1 in every
other case; the optional-tools outcome itself is discarded. -/
theorem c1_amended (env : Env) (r : OptionalToolsReport)
    (h : check_optional_tools env = Except.ok r) :
    (main env = Except.ok 0 ∨ main env = Except.ok 1) ∧
    (main env = Except.ok 0 ↔
      ((check_python_version env).passed = true ∧
       (check_virtual_env env).passed = true ∧
       (check_core_dependencies env).1.passed = true ∧
       (check_metagpt env).passed = true ∧
       (check_console_script env).passed = true ∧
       (check_config_files env).passed = true)) := by
  have hmv : main env =
      (if [(check_python_version env).passed,
           (check_virtual_env env).passed,
           (check_core_dependencies env).1.passed,
           (check_metagpt env).passed,
           (check_console_script env).passed,
           (check_config_files env).passed].count true =
          [(check_python_version env).passed,
           (check_virtual_env env).passed,
           (check_core_dependencies env).1.passed,
           (check_metagpt env).passed,
           (check_console_script env).passed,
           (check_config_files env).passed].length then
        (Except.ok 0 : Except PyExc Nat)
      else
        Except.ok 1) := by
    unfold main
    rw [h]
  rw [hmv]
  constructor
  · split
    · exact Or.inl rfl
    · exact Or.inr rfl
  · constructor
    · intro h0
      split at h0
      · rename_i hcond
        exact (count_six _ _ _ _ _ _).mp hcond
      · exact absurd h0 (by decide)
    · intro hconj
      rw [if_pos ((count_six _ _ _ _ _ _).mpr hconj)]

/-- Witness for C1 (amended) at the healthy snapshot: every gated check
passes and main returns 0. -/
theorem c1_amended_witness : main envAllGood = Except.ok 0 :=
  (c1_amended envAllGood
    { npmOk := true, mmdcResult := some true, playwrightOk := true } rfl).2.mpr
    ⟨rfl, rfl, rfl, rfl, rfl, rfl⟩

/-- Claim C4 (amended): the three console-script fault modes all FAIL, but
only two detail texts arise — not-found and timed-out share one message
while a non-zero exit gets a distinct one. -/
theorem c4_amended (env : Env) (rc : Int) (out : String) (hrc : rc ≠ 0) :
    (check_console_script { env with metagptCmd := CmdOutcome.notFound }).passed = false ∧
    (check_console_script { env with metagptCmd := CmdOutcome.timeout }).passed = false ∧
    (check_console_script { env with metagptCmd := CmdOutcome.ran rc out }).passed = false ∧
    (check_console_script { env with metagptCmd := CmdOutcome.notFound }).detail =
      (check_console_script { env with metagptCmd := CmdOutcome.timeout }).detail ∧
    (check_console_script { env with metagptCmd := CmdOutcome.notFound }).detail ≠
      (check_console_script { env with metagptCmd := CmdOutcome.ran rc out }).detail := by
  have h3 : check_console_script { env with metagptCmd := CmdOutcome.ran rc out } =
      { passed := false, detail := "metagpt command failed", remediation := "" } := by
    unfold check_console_script subprocessRun
    simp [hrc]
  have h1 : check_console_script { env with metagptCmd := CmdOutcome.notFound } =
      { passed := false, detail := "metagpt command not found",
        remediation := "Install with: pip install -e ." } := rfl
  refine ⟨rfl, rfl, ?_, rfl, ?_⟩
  · rw [h3]
  · rw [h1, h3]
    decide

/-- Witness for C4 (amended): concrete instantiation at the healthy
snapshot with return code 1. -/
theorem c4_amended_witness :
    (check_console_script { envAllGood with metagptCmd := CmdOutcome.notFound }).detail ≠
      (check_console_script { envAllGood with metagptCmd := CmdOutcome.ran 1 "" }).detail :=
  (c4_amended envAllGood 1 "" (by decide)).2.2.2.2

/-- Claim C5: when the npm gate fails (missing executable or non-zero
exit), the mmdc block reports npm unusable with the mmdc result never
produced, the whole optional-tools probe is insensitive to the mmdc
command outcome (so its subprocess is never invoked), and the verdict of
main is likewise insensitive to it. -/
theorem c5_gating (env : Env)
    (h : env.npmCmd = CmdOutcome.notFound ∨
         ∃ rc out, env.npmCmd = CmdOutcome.ran rc out ∧ rc ≠ 0) :
    check_npm_mmdc env = Except.ok (false, none) ∧
    ∀ c : CmdOutcome,
      check_optional_tools { env with mmdcCmd := c } = check_optional_tools env ∧
      main { env with mmdcCmd := c } = main env := by
  have hnm : ∀ c : CmdOutcome,
      check_npm_mmdc { env with mmdcCmd := c } = Except.ok (false, none) := by
    intro c
    rcases h with h | ⟨rc, out, hran, hrc⟩
    · unfold check_npm_mmdc subprocessRun
      rw [show ({ env with mmdcCmd := c } : Env).npmCmd = env.npmCmd from rfl, h]
    · unfold check_npm_mmdc subprocessRun
      rw [show ({ env with mmdcCmd := c } : Env).npmCmd = env.npmCmd from rfl, hran]
      simp [hrc]
  have hbase : check_npm_mmdc env = Except.ok (false, none) := by
    rcases h with h | ⟨rc, out, hran, hrc⟩
    · unfold check_npm_mmdc subprocessRun
      rw [h]
    · unfold check_npm_mmdc subprocessRun
      rw [hran]
      simp [hrc]
  have hopt : ∀ c : CmdOutcome,
      check_optional_tools { env with mmdcCmd := c } = check_optional_tools env := by
    intro c
    unfold check_optional_tools
    rw [hnm c, hbase]
    rfl
  refine ⟨hbase, fun c => ⟨hopt c, ?_⟩⟩
  unfold main
  rw [hopt c]
  rfl

/-- Witness for C5 at a snapshot with npm missing: even an mmdc command
that would crash the probe if invoked (a timeout) changes nothing. -/
theorem c5_gating_witness :
    check_npm_mmdc envNpmMissing = Except.ok (false, none) ∧
    main { envNpmMissing with mmdcCmd := CmdOutcome.timeout } = main envNpmMissing := by
  have h := c5_gating envNpmMissing (Or.inl rfl)
  exact ⟨h.1, (h.2 CmdOutcome.timeout).2⟩

/-- Claim C6: the dependency batch passes exactly when every required
member resolves; changing importability only outside the optional batch
list being forbidden, any change confined to the optional members leaves
both the batch status and the verdict of main unchanged. -/
theorem c6_core_batch (env : Env) (f : String → Bool) :
    ((check_core_dependencies env).1.passed = true ↔
      ∀ p ∈ dependencies, env.importable p = true) ∧
    ((∀ p, p ∉ optional_deps → f p = env.importable p) →
      (check_core_dependencies { env with importable := f }).1.passed =
        (check_core_dependencies env).1.passed ∧
      main { env with importable := f } = main env) := by
  constructor
  · unfold check_core_dependencies check_package_import
    simp [List.all_eq_true]
  · intro hf
    have hs : f "sys" = env.importable "sys" := hf _ (by decide)
    have hp : f "pathlib" = env.importable "pathlib" := hf _ (by decide)
    have hsub : f "subprocess" = env.importable "subprocess" := hf _ (by decide)
    have hi : f "importlib" = env.importable "importlib" := hf _ (by decide)
    have hm : f "metagpt" = env.importable "metagpt" := hf _ (by decide)
    have hcore : (check_core_dependencies { env with importable := f }).1.passed =
        (check_core_dependencies env).1.passed := by
      unfold check_core_dependencies check_package_import dependencies
      simp [hs, hp, hsub, hi]
    have hmeta : check_metagpt { env with importable := f } = check_metagpt env := by
      unfold check_metagpt
      rw [show ({ env with importable := f } : Env).importable "metagpt" = f "metagpt" from rfl,
        hm]
    refine ⟨hcore, ?_⟩
    unfold main
    rw [hcore, hmeta]
    rfl

/-- Witness for C6: flipping importability of the optional member numpy at
the healthy snapshot leaves the verdict of main unchanged. -/
theorem c6_core_batch_witness :
    main { envAllGood with importable := fun p => !(p == "numpy") } = main envAllGood := by
  refine ((c6_core_batch envAllGood (fun p => !(p == "numpy"))).2 ?_).2
  intro p hp
  by_cases he : p = "numpy"
  · exact absurd (by rw [he]; decide) hp
  · have hb : (p == "numpy") = false := beq_eq_false_iff_ne.mpr he
    show (!(p == "numpy")) = envAllGood.importable p
    rw [hb]
    rfl

/-- Claim C7 (amended): a passing probe never carries remediation text, and
among failing probes exactly the virtual-environment, package-import,
configuration and console-script-exception failures carry remediation: the
version probe and the dependency batch never emit any, and a console
command that runs but exits non-zero fails without remediation. -/
theorem c7_amended (env : Env) :
    (check_python_version env).remediation = "" ∧
    ((check_virtual_env env).remediation = "" ↔ (check_virtual_env env).passed = true) ∧
    (check_core_dependencies env).1.remediation = "" ∧
    ((check_metagpt env).remediation = "" ↔ (check_metagpt env).passed = true) ∧
    ((check_config_files env).remediation = "" ↔ (check_config_files env).passed = true) ∧
    ((check_console_script env).remediation = "" ↔
      ∃ rc out, env.metagptCmd = CmdOutcome.ran rc out) := by
  refine ⟨?_, ?_, rfl, ?_, ?_, ?_⟩
  · unfold check_python_version
    split <;> rfl
  · unfold check_virtual_env
    split
    · exact iff_of_true rfl rfl
    · exact iff_of_false (by decide) (by decide)
  · unfold check_metagpt
    split
    · exact iff_of_true rfl rfl
    · exact iff_of_false (by decide) (by decide)
  · unfold check_config_files
    split
    · exact iff_of_true rfl rfl
    · exact iff_of_false (by decide) (by decide)
  · cases hc : env.metagptCmd with
    | notFound =>
        have he : check_console_script env =
            { passed := false, detail := "metagpt command not found",
              remediation := "Install with: pip install -e ." } := by
          unfold check_console_script subprocessRun
          rw [hc]
        rw [he]
        exact iff_of_false (by decide)
          (by rintro ⟨rc, out, hcontra⟩; exact CmdOutcome.noConfusion hcontra)
    | timeout =>
        have he : check_console_script env =
            { passed := false, detail := "metagpt command not found",
              remediation := "Install with: pip install -e ." } := by
          unfold check_console_script subprocessRun
          rw [hc]
        rw [he]
        exact iff_of_false (by decide)
          (by rintro ⟨rc, out, hcontra⟩; exact CmdOutcome.noConfusion hcontra)
    | ran rc out =>
        by_cases hz : rc = 0
        · have he : check_console_script env =
              { passed := true, detail := "metagpt command is available",
                remediation := "" } := by
            unfold check_console_script subprocessRun
            rw [hc]
            show (if rc = 0 then
                ({ passed := true, detail := "metagpt command is available",
                   remediation := "" } : ProbeReport)
              else
                { passed := false, detail := "metagpt command failed",
                  remediation := "" }) = _
            rw [if_pos hz]
          rw [he]
          exact iff_of_true rfl ⟨rc, out, rfl⟩
        · have he : check_console_script env =
              { passed := false, detail := "metagpt command failed",
                remediation := "" } := by
            unfold check_console_script subprocessRun
            rw [hc]
            show (if rc = 0 then
                ({ passed := true, detail := "metagpt command is available",
                   remediation := "" } : ProbeReport)
              else
                { passed := false, detail := "metagpt command failed",
                  remediation := "" }) = _
            rw [if_neg hz]
          rw [he]
          exact iff_of_true rfl ⟨rc, out, rfl⟩

/-- Claim C8 (amended): the configuration probe passes exactly when one of
the two declared paths exists; file content plays no part. -/
theorem c8_amended (env : Env) :
    (check_config_files env).passed = true ↔
      (env.configHomeExists = true ∨ env.configLocalExists = true) := by
  unfold check_config_files
  split
  · rename_i hcond
    exact iff_of_true rfl (by simpa [Bool.or_eq_true] using hcond)
  · rename_i hcond
    exact iff_of_false (by decide) (fun hab => hcond (by simpa [Bool.or_eq_true] using hab))

/-- Claim C10 (amended): whenever the optional-tools probe raises no
exception, main returns exactly 0 or 1, and the value is determined solely
by the six booleans of its gating list: two snapshots agreeing on those
six (neither raising in optional tools) get the same verdict. -/
theorem c10_amended (env env2 : Env) (r r2 : OptionalToolsReport)
    (h : check_optional_tools env = Except.ok r)
    (h2 : check_optional_tools env2 = Except.ok r2)
    (ha : (check_python_version env).passed = (check_python_version env2).passed ∧
      (check_virtual_env env).passed = (check_virtual_env env2).passed ∧
      (check_core_dependencies env).1.passed = (check_core_dependencies env2).1.passed ∧
      (check_metagpt env).passed = (check_metagpt env2).passed ∧
      (check_console_script env).passed = (check_console_script env2).passed ∧
      (check_config_files env).passed = (check_config_files env2).passed) :
    (main env = Except.ok 0 ∨ main env = Except.ok 1) ∧ main env = main env2 := by
  obtain ⟨a1, a2, a3, a4, a5, a6⟩ := ha
  have hmv : main env =
      (if [(check_python_version env).passed,
           (check_virtual_env env).passed,
           (check_core_dependencies env).1.passed,
           (check_metagpt env).passed,
           (check_console_script env).passed,
           (check_config_files env).passed].count true =
          [(check_python_version env).passed,
           (check_virtual_env env).passed,
           (check_core_dependencies env).1.passed,
           (check_metagpt env).passed,
           (check_console_script env).passed,
           (check_config_files env).passed].length then
        (Except.ok 0 : Except PyExc Nat)
      else
        Except.ok 1) := by
    unfold main
    rw [h]
  have hmv2 : main env2 =
      (if [(check_python_version env2).passed,
           (check_virtual_env env2).passed,
           (check_core_dependencies env2).1.passed,
           (check_metagpt env2).passed,
           (check_console_script env2).passed,
           (check_config_files env2).passed].count true =
          [(check_python_version env2).passed,
           (check_virtual_env env2).passed,
           (check_core_dependencies env2).1.passed,
           (check_metagpt env2).passed,
           (check_console_script env2).passed,
           (check_config_files env2).passed].length then
        (Except.ok 0 : Except PyExc Nat)
      else
        Except.ok 1) := by
    unfold main
    rw [h2]
  rw [hmv, hmv2, a1, a2, a3, a4, a5, a6]
  constructor
  · split
    · exact Or.inl rfl
    · exact Or.inr rfl
  · rfl

/-- Witness for C10 (amended): the healthy snapshot and its npm-missing
variant agree on the six gated checks and get the same verdict. -/
theorem c10_amended_witness :
    (main envAllGood = Except.ok 0 ∨ main envAllGood = Except.ok 1) ∧
    main envAllGood = main envNpmMissing :=
  c10_amended envAllGood envNpmMissing
    { npmOk := true, mmdcResult := some true, playwrightOk := true }
    { npmOk := false, mmdcResult := none, playwrightOk := true }
    rfl rfl ⟨rfl, rfl, rfl, rfl, rfl, rfl⟩

end VerifySetup
